import Mathlib

/-!
Shallow embedding of `generate_credit_data.py`, a single-pass synthetic
credit-data generator.  Real-valued columns are modelled as `ℚ`, integer
columns as `ℤ`/`ℕ`.  Randomness is modelled by passing every random draw
explicitly: `Globals` holds the draws evaluated once per run, `RowDraws`
holds the per-row draws.  Each `def` mirrors one line or stage function of
the source script, in pipeline order.
-/

namespace CreditData

/-- Number of generated rows (`num_samples = 10000`). -/
def num_samples : ℕ := 10000

/-- Categorical domain of `Region` as sampled by `np.random.choice(regions, ...)`. -/
inductive Region
  | Northeast | Midwest | South | West
deriving DecidableEq

/-- Categorical domain of `Education_Level`. -/
inductive Education
  | LessThanHighSchool | HighSchool | Associates | Bachelors | Masters | Doctorate
deriving DecidableEq

/-- Categorical domain of `Employment_Status`. -/
inductive Employment
  | FullTime | PartTime | SelfEmployed | Unemployed | Retired
deriving DecidableEq

/-- Categorical domain of `Housing`. -/
inductive Housing
  | Rent | Own
deriving DecidableEq

/-- The `income_adjustment` dict, as a total function on the closed label set. -/
def income_adjustment : Region → ℚ
  | .Northeast => 1.1
  | .Midwest => 0.9
  | .South => 0.8
  | .West => 1.0

/-- The `education_income_multiplier` dict, as a total function. -/
def education_income_multiplier : Education → ℚ
  | .LessThanHighSchool => 0.6
  | .HighSchool => 0.8
  | .Associates => 1.0
  | .Bachelors => 1.2
  | .Masters => 1.4
  | .Doctorate => 1.6

/-- The `employment_income_multiplier` dict, as a total function. -/
def employment_income_multiplier : Employment → ℚ
  | .FullTime => 1.0
  | .PartTime => 0.6
  | .SelfEmployed => 0.9
  | .Unemployed => 0.2
  | .Retired => 0.7

/-- The `income_adjustment` dict with its literal string keys (a Python dict
lookup raises `KeyError` on a missing key, modelled by `List.lookup`). -/
def income_adjustment_table : List (String × ℚ) :=
  [("Northeast", 1.1), ("Midwest", 0.9), ("South", 0.8), ("West", 1.0)]

/-- The `education_income_multiplier` dict with its literal string keys. -/
def education_income_multiplier_table : List (String × ℚ) :=
  [("Less than High School", 0.6), ("High School", 0.8), ("Associate\x27s Degree", 1.0),
   ("Bachelor\x27s Degree", 1.2), ("Master\x27s Degree", 1.4), ("Doctorate", 1.6)]

/-- The `employment_income_multiplier` dict with its literal string keys. -/
def employment_income_multiplier_table : List (String × ℚ) :=
  [("Full-Time", 1.0), ("Part-Time", 0.6), ("Self-Employed", 0.9),
   ("Unemployed", 0.2), ("Retired", 0.7)]

/-- The label set from which the base sampler draws `Region`. -/
def region_labels : List String := ["Northeast", "Midwest", "South", "West"]

/-- The label set from which the base sampler draws `Education_Level`. -/
def education_labels : List String :=
  ["Less than High School", "High School", "Associate\x27s Degree",
   "Bachelor\x27s Degree", "Master\x27s Degree", "Doctorate"]

/-- The label set from which the base sampler draws `Employment_Status`. -/
def employment_labels : List String :=
  ["Full-Time", "Part-Time", "Self-Employed", "Unemployed", "Retired"]

/-- The income-derivation row lambda (line 113): three dict lookups multiplied
onto the base normal draw; a missing key raises `KeyError`, modelled as `none`. -/
def derive_income (base : ℚ) (region edu emp : String) : Option ℚ :=
  match income_adjustment_table.lookup region,
        education_income_multiplier_table.lookup edu,
        employment_income_multiplier_table.lookup emp with
  | some r, some e, some m => some (base * r * e * m)
  | _, _, _ => none

/-- Draws evaluated once per run: the five within-band uniform values inside
`np.random.choice([...], size=num_samples, p=[...])` (line 153) are computed
once before the choice is made, so they are shared by every row. -/
structure Globals where
  bands : Fin 5 → ℚ

/-- All per-row random draws, one field per sampler call that feeds the
columns the claims are about. -/
structure RowDraws where
  ageRaw : ℤ
  region : Region
  education : Education
  employment : Employment
  incomeBase : ℚ
  bankruptcy : Bool
  bankruptcyDaysAgo : ℕ
  delinquency : ℕ
  utilization : ℚ
  housing : Housing
  bandIndex : Fin 5
  existingDebtFactor : ℚ
  cardDebtFactor : ℚ
  mortgageFactor : ℚ
  autoFactor : ℚ
  paymentPick : Bool
  accountAgeDraw : ℕ
  isOutlier : Bool
  outIncomeFactor : ℚ
  outDebtFactor : ℚ
deriving DecidableEq

/-- `pandas`/`numpy` clip on rationals: values below `lo` become `lo`,
values above `hi` become `hi` (upper bound wins when they conflict). -/
def clipQ (x lo hi : ℚ) : ℚ := min hi (max lo x)

/-- `pandas` clip on integers. -/
def clipZ (x lo hi : ℤ) : ℤ := min hi (max lo x)

/-- Income after derivation and the first clip (lines 113-119):
`normal draw × region × education × employment`, clipped to `[20000, 500000]`. -/
def Income_0 (d : RowDraws) : ℚ :=
  clipQ (d.incomeBase * income_adjustment d.region *
    education_income_multiplier d.education *
    employment_income_multiplier d.employment) 20000 500000

/-- `generate_bankruptcy_date` (line 133): a date (kept as days-ago) exists
iff `Bankruptcy_History == "Yes"`. -/
def generate_bankruptcy_date (bankruptcy : Bool) (daysAgo : ℕ) : Option ℕ :=
  if bankruptcy then some daysAgo else none

/-- Base credit score (line 153): the row's chosen band value among the five
run-level draws. -/
def Credit_Score_base (g : Globals) (d : RowDraws) : ℚ := g.bands d.bandIndex

/-- First-pass existing debt (line 160): `Income × uniform(0.1, 0.5)`. -/
def Existing_Debt_0 (d : RowDraws) : ℚ := Income_0 d * d.existingDebtFactor

/-- First-pass DTI (line 161): `Existing_Debt / Income`. -/
def DTI_1 (d : RowDraws) : ℚ := Existing_Debt_0 d / Income_0 d

/-- Score after the DTI adjustment (line 164): subtract `DTI × 50`. -/
def Credit_Score_afterDTI (g : Globals) (d : RowDraws) : ℚ :=
  Credit_Score_base g d - DTI_1 d * 50

/-- `adjust_credit_score_by_bankruptcy` (lines 167-177); `years_since` is
`days / 365` as an exact rational. -/
def adjust_credit_score_by_bankruptcy (score : ℚ) (bd : Option ℕ) : ℚ :=
  match bd with
  | some daysAgo =>
      let ys : ℚ := (daysAgo : ℚ) / 365
      if ys < 7 then score - 50
      else if 7 ≤ ys ∧ ys < 10 then score - 20
      else score - 5
  | none => score

/-- Score after the bankruptcy adjustment (line 179). -/
def Credit_Score_afterBankruptcy (g : Globals) (d : RowDraws) : ℚ :=
  adjust_credit_score_by_bankruptcy (Credit_Score_afterDTI g d)
    (generate_bankruptcy_date d.bankruptcy d.bankruptcyDaysAgo)

/-- The bankruptcy penalty as a function of years since bankruptcy, read off
the branches of `adjust_credit_score_by_bankruptcy`. -/
def bankruptcy_penalty (ys : ℚ) : ℚ :=
  if ys < 7 then 50 else if 7 ≤ ys ∧ ys < 10 then 20 else 5

/-- `Credit_Card_Debt` (line 182): `Income × uniform(0.05, 0.2)`. -/
def Credit_Card_Debt (d : RowDraws) : ℚ := Income_0 d * d.cardDebtFactor

/-- `Mortgage_Debt` (line 183): `Income × uniform(1.0, 3.0)` for owners, else 0. -/
def Mortgage_Debt (d : RowDraws) : ℚ :=
  match d.housing with
  | .Own => Income_0 d * d.mortgageFactor
  | .Rent => 0

/-- `Auto_Loan_Debt` (line 184): `Income × uniform(0.1, 0.5)`. -/
def Auto_Loan_Debt (d : RowDraws) : ℚ := Income_0 d * d.autoFactor

/-- `Total_Debt` before outlier injection (line 187): sum of the four debts. -/
def Total_Debt_0 (d : RowDraws) : ℚ :=
  Existing_Debt_0 d + Credit_Card_Debt d + Mortgage_Debt d + Auto_Loan_Debt d

/-- Recomputed DTI (line 188): `Total_Debt / Income`. -/
def DTI_final (d : RowDraws) : ℚ := Total_Debt_0 d / Income_0 d

/-- `simulate_payment_history` (lines 191-202); the weighted two-label draw in
each score band is modelled by the boolean `pick` (true = the first,
higher-weighted label). -/
def simulate_payment_history (score : ℚ) (delinq : ℕ) (bankr : Bool) (pick : Bool) : String :=
  if bankr then "Poor"
  else if 3 < delinq then "Poor"
  else if 750 ≤ score then (if pick then "Excellent" else "Good")
  else if 650 ≤ score ∧ score < 750 then (if pick then "Good" else "Average")
  else (if pick then "Average" else "Poor")

/-- `Payment_History` (line 204): computed from the credit score as it stands
after the bankruptcy adjustment, before the history bonus and the
utilization penalty. -/
def Payment_History (g : Globals) (d : RowDraws) : String :=
  simulate_payment_history (Credit_Score_afterBankruptcy g d)
    d.delinquency d.bankruptcy d.paymentPick

/-- `generate_account_age` (lines 207-211): for `age > 18` a draw from
`randint(0, min(age − 18, age))` (the draw itself is a field of `RowDraws`,
constrained to `[0, age − 19]` where a theorem needs it), else 0. -/
def generate_account_age (age : ℤ) (draw : ℕ) : ℤ :=
  if 18 < age then (draw : ℤ) else 0

/-- `Account_Age` (line 213). -/
def Account_Age (d : RowDraws) : ℤ := generate_account_age d.ageRaw d.accountAgeDraw

/-- `Credit_History_Length` (line 216): `max(0, Age − 18 − Account_Age)`,
computed from the raw (pre-clip) age. -/
def Credit_History_Length (d : RowDraws) : ℤ :=
  max 0 (d.ageRaw - 18 - Account_Age d)

/-- Score after the history-length bonus (line 219): add `0.5 × length`. -/
def Credit_Score_afterHistory (g : Globals) (d : RowDraws) : ℚ :=
  Credit_Score_afterBankruptcy g d + (Credit_History_Length d : ℚ) * 0.5

/-- `adjust_credit_score_by_utilization` (lines 222-228). -/
def adjust_credit_score_by_utilization (score util : ℚ) : ℚ :=
  if 0.75 < util then score - 25
  else if 0.5 < util then score - 10
  else score

/-- The credit score entering the final clip (line 230). -/
def Credit_Score_preClip (g : Globals) (d : RowDraws) : ℚ :=
  adjust_credit_score_by_utilization (Credit_Score_afterHistory g d) d.utilization

/-- Income after the outlier multiplication (line 234) for rows in the
selected index set. -/
def Income_afterOutlier (d : RowDraws) : ℚ :=
  if d.isOutlier then Income_0 d * d.outIncomeFactor else Income_0 d

/-- `Total_Debt` after the outlier multiplication (line 235). -/
def Total_Debt_final (d : RowDraws) : ℚ :=
  if d.isOutlier then Total_Debt_0 d * d.outDebtFactor else Total_Debt_0 d

/-- Final `Age` (line 247): clipped to `[18, 70]`. -/
def Age_final (d : RowDraws) : ℤ := clipZ d.ageRaw 18 70

/-- Final `Income` (line 248): clipped to `[20000, 400000]`. -/
def Income_final (d : RowDraws) : ℚ := clipQ (Income_afterOutlier d) 20000 400000

/-- Final `Credit_Score` (line 249): clipped to `[300, 850]`. -/
def Credit_Score_final (g : Globals) (d : RowDraws) : ℚ :=
  clipQ (Credit_Score_preClip g d) 300 850

/-- Final `Existing_Debt` (line 250): clipped to `[0, 0.5 × final Income]`. -/
def Existing_Debt_final (d : RowDraws) : ℚ :=
  clipQ (Existing_Debt_0 d) 0 (Income_final d * 0.5)

/-- The bin edges of line 253. -/
def score_bins : List ℚ := [300, 580, 670, 740, 800, 850]

/-- The ordered labels of line 254. -/
def score_labels : List String := ["Very Poor", "Fair", "Good", "Very Good", "Excellent"]

/-- Interval scan of `pd.cut` with the default `right=True`: the value falls
in bin `(lo, hi]`. -/
def cutGo (x : ℚ) : List ℚ → List String → Option String
  | lo :: hi :: bins, lab :: labs =>
      if lo < x ∧ x ≤ hi then some lab else cutGo x (hi :: bins) labs
  | _, _ => none

/-- `pd.cut(x, bins, labels, include_lowest)` with default right-closed
intervals; `include_lowest` additionally closes the first bin on the left. -/
def cut (x : ℚ) (bins : List ℚ) (labels : List String) (includeLowest : Bool) : Option String :=
  match bins, labels with
  | lo :: _, lab :: _ =>
      if includeLowest ∧ x = lo then some lab else cutGo x bins labels
  | _, _ => none

/-- `Credit_Score_Category` (line 255): `pd.cut` of the final clipped score
with `include_lowest=True`. -/
def Credit_Score_Category (g : Globals) (d : RowDraws) : Option String :=
  cut (Credit_Score_final g d) score_bins score_labels true

/-- A row of the table at the point of outlier injection (line 233): the two
columns the injection writes, plus all remaining columns abstracted as
`rest` (the `df.loc` assignments name only `Income` and `Total_Debt`). -/
structure OutlierRow (α : Type) where
  income : ℚ
  totalDebt : ℚ
  rest : α
deriving DecidableEq

/-- Number of outlier rows (line 233): `int(0.01 * len(df))`
(`0.01 * 10000` is exactly `100.0` in IEEE double, so the rational
model is exact at the program's sample count). -/
def numOutliers (n : ℕ) : ℕ := (((0.01 : ℚ) * n).floor).toNat

/-- The outlier-injection step (lines 233-235): rows in the selected index
set have `Income` and `Total_Debt` multiplied by their drawn factors;
every other row and every other column is untouched. -/
def injectOutliers {α : Type} (rows : ℕ → OutlierRow α) (sel : Finset ℕ)
    (fi fd : ℕ → ℚ) : ℕ → OutlierRow α :=
  fun i => if i ∈ sel then
    { income := (rows i).income * fi i, totalDebt := (rows i).totalDebt * fd i,
      rest := (rows i).rest }
  else rows i

/-- A template row used to build concrete rows for evaluations. -/
def dBase : RowDraws :=
  { ageRaw := 40, region := .West, education := .HighSchool, employment := .FullTime,
    incomeBase := 75000, bankruptcy := false, bankruptcyDaysAgo := 0, delinquency := 0,
    utilization := 0.3, housing := .Rent, bandIndex := 0, existingDebtFactor := 0.2,
    cardDebtFactor := 0.1, mortgageFactor := 2, autoFactor := 0.2, paymentPick := true,
    accountAgeDraw := 22, isOutlier := false, outIncomeFactor := 2, outDebtFactor := 1.5 }

/-- Run-level band draws all equal to 590 (inside the 580-669 band). -/
def gBand590 : Globals := ⟨fun _ => 590⟩

/-- A row whose final credit score is exactly 580: income `60000`, first-pass
debt factor `0.2` (so the DTI penalty is 10), base score 590, no bankruptcy,
zero history length, utilization 0.3. -/
def dRow580 : RowDraws := { dBase with ageRaw := 18, accountAgeDraw := 0 }

/-- A row with raw sampled age 80 (above the clip ceiling 70) and account-age
draw 0, legal for `randint(0, min(80 - 18, 80))`. -/
def dRow80 : RowDraws := { dBase with ageRaw := 80, accountAgeDraw := 0 }

/-- A row with raw age 40 (not affected by the age clip) and account-age
draw 5. -/
def dRow40 : RowDraws := { dBase with accountAgeDraw := 5 }

/-- Run-level band draws all equal to 758 (inside the 740-799 band). -/
def gBand758 : Globals := ⟨fun _ => 758⟩

/-- A row whose mid-pipeline credit score (used for `Payment_History`) is 748
while its final credit score is 758: base 758, DTI penalty 10, no
bankruptcy, history-length bonus 10, no utilization penalty. -/
def dRow748 : RowDraws := { dBase with accountAgeDraw := 2 }

/-- A row with a bankruptcy 1825 days (5 years) ago. -/
def dBank : RowDraws := { dBase with bankruptcy := true, bankruptcyDaysAgo := 1825 }

-- Bounds satisfied by the element-wise clip operations.

lemma clipQ_le_right (x lo hi : ℚ) : clipQ x lo hi ≤ hi := min_le_left _ _

lemma le_clipQ (x : ℚ) {lo hi : ℚ} (h : lo ≤ hi) : lo ≤ clipQ x lo hi :=
  le_min h (le_max_left _ _)

lemma clipZ_le_right (x lo hi : ℤ) : clipZ x lo hi ≤ hi := min_le_left _ _

lemma le_clipZ (x : ℤ) {lo hi : ℤ} (h : lo ≤ hi) : lo ≤ clipZ x lo hi :=
  le_min h (le_max_left _ _)

-- The branches of the bankruptcy penalty.

lemma bankruptcy_penalty_recent {ys : ℚ} (h : ys < 7) : bankruptcy_penalty ys = 50 := by
  unfold bankruptcy_penalty
  rw [if_pos h]

lemma bankruptcy_penalty_mid {ys : ℚ} (h7 : 7 ≤ ys) (h10 : ys < 10) :
    bankruptcy_penalty ys = 20 := by
  unfold bankruptcy_penalty
  rw [if_neg (not_lt.mpr h7), if_pos ⟨h7, h10⟩]

lemma bankruptcy_penalty_old {ys : ℚ} (h : 10 ≤ ys) : bankruptcy_penalty ys = 5 := by
  unfold bankruptcy_penalty
  rw [if_neg (by linarith), if_neg (by rintro ⟨_, h2⟩; linarith)]

lemma adjust_bankruptcy_some (score : ℚ) (daysAgo : ℕ) :
    adjust_credit_score_by_bankruptcy score (some daysAgo) =
      score - bankruptcy_penalty ((daysAgo : ℚ) / 365) := by
  simp only [adjust_credit_score_by_bankruptcy, bankruptcy_penalty]
  split_ifs <;> ring

/-- Claim C3: in the final serialized table, for every row and regardless of
the random draws, `300 ≤ Credit_Score ≤ 850`, `18 ≤ Age ≤ 70`,
`20000 ≤ Income ≤ 400000`, and `0 ≤ Existing_Debt ≤ 0.5 × Income`. -/
theorem final_row_invariants (g : Globals) (d : RowDraws) :
    300 ≤ Credit_Score_final g d ∧ Credit_Score_final g d ≤ 850 ∧
    18 ≤ Age_final d ∧ Age_final d ≤ 70 ∧
    20000 ≤ Income_final d ∧ Income_final d ≤ 400000 ∧
    0 ≤ Existing_Debt_final d ∧ Existing_Debt_final d ≤ 0.5 * Income_final d := by
  have hinc : (20000 : ℚ) ≤ Income_final d := le_clipQ _ (by norm_num)
  refine ⟨le_clipQ _ (by norm_num), clipQ_le_right _ _ _,
    le_clipZ _ (by norm_num), clipZ_le_right _ _ _,
    hinc, clipQ_le_right _ _ _,
    le_clipQ _ (by nlinarith), ?_⟩
  have h := clipQ_le_right (Existing_Debt_0 d) 0 (Income_final d * 0.5)
  calc Existing_Debt_final d ≤ Income_final d * 0.5 := h
    _ = 0.5 * Income_final d := by ring

/-- Claim C9: the five within-band uniform draws of the base credit-score
sampler are evaluated once per run (they live in `Globals`), so across all
`num_samples` rows the base credit score takes at most five distinct
values. -/
theorem base_score_at_most_five_values (g : Globals) (ds : ℕ → RowDraws) :
    ((Finset.range num_samples).image (fun i => Credit_Score_base g (ds i))).card ≤ 5 := by
  have hsub : ((Finset.range num_samples).image fun i => Credit_Score_base g (ds i)) ⊆
      Finset.image g.bands Finset.univ := by
    intro x hx
    rcases Finset.mem_image.mp hx with ⟨i, _, rfl⟩
    exact Finset.mem_image.mpr ⟨(ds i).bandIndex, Finset.mem_univ _, rfl⟩
  calc ((Finset.range num_samples).image fun i => Credit_Score_base g (ds i)).card
      ≤ (Finset.image g.bands Finset.univ).card := Finset.card_le_card hsub
    _ ≤ (Finset.univ : Finset (Fin 5)).card := Finset.card_image_le
    _ = 5 := by simp

/-- Claim C2 (counterexample): with raw sampled age 80 and account-age draw 0
(both legal draws), the serialized row has `Age = 70 > 18` but
`Credit_History_Length = 62 > 70 - 18`, because the history length is
computed from the age before the final clip. -/
theorem history_length_counterexample :
    18 < Age_final dRow80 ∧
    ¬ (Credit_History_Length dRow80 ≤ Age_final dRow80 - 18) := by decide

/-- Claim C2 (amended): for every row and regardless of the random draws,
`Credit_History_Length ≥ 0`; and whenever the raw sampled age is at most 70
(so the final age clip is the identity above 18) and the final `Age` exceeds
18, `Credit_History_Length ≤ Age - 18`.  (For raw ages above 70 the bound can
fail against the clipped `Age`, as the counterexample shows.) -/
theorem history_length_bounds (d : RowDraws) :
    0 ≤ Credit_History_Length d ∧
    (d.ageRaw ≤ 70 → 18 < Age_final d → Credit_History_Length d ≤ Age_final d - 18) := by
  refine ⟨le_max_left _ _, ?_⟩
  intro h70 h18
  simp only [Credit_History_Length, Account_Age, generate_account_age, Age_final, clipZ] at h18 ⊢
  split_ifs with h
  · omega
  · omega

/-- Claim C2 (witness): the amended bound applied at a concrete row with raw
age 40 and account-age draw 5. -/
theorem history_length_bounds_witness :
    0 ≤ Credit_History_Length dRow40 ∧
    Credit_History_Length dRow40 ≤ Age_final dRow40 - 18 :=
  ⟨(history_length_bounds dRow40).1,
   (history_length_bounds dRow40).2 (by decide) (by decide)⟩

/-- Claim C1 (counterexample): a concrete row whose final credit score is
exactly 580 is categorized "Very Poor", not "Fair", because `pd.cut`'s
default intervals are right-closed: the lowest bin is `[300, 580]`. -/
theorem category_at_580_counterexample :
    Credit_Score_final gBand590 dRow580 = 580 ∧
    Credit_Score_Category gBand590 dRow580 = some "Very Poor" ∧
    some "Very Poor" ≠ some "Fair" := by
  have hscore : Credit_Score_final gBand590 dRow580 = 580 := by
    norm_num [Credit_Score_final, Credit_Score_preClip, adjust_credit_score_by_utilization,
      Credit_Score_afterHistory, Credit_History_Length, Account_Age, generate_account_age,
      Credit_Score_afterBankruptcy, generate_bankruptcy_date, adjust_credit_score_by_bankruptcy,
      Credit_Score_afterDTI, Credit_Score_base, DTI_1, Existing_Debt_0, Income_0,
      income_adjustment, education_income_multiplier, employment_income_multiplier,
      clipQ, min_def, max_def, gBand590, dRow580, dBase]
  refine ⟨hscore, ?_, by decide⟩
  rw [Credit_Score_Category, hscore]
  norm_num [cut, cutGo, score_bins, score_labels]

/-- Claim C1 (amended): `Credit_Score_Category` is obtained by binning the
final clipped credit score with fixed edges `[300, 580, 670, 740, 800, 850]`
into the five ordered labels, with right-closed bins and the lowest bin
closed on the left: a final score of 579.9 gets "Very Poor", exactly 580.0
gets "Very Poor" (not "Fair"; "Fair" is the bin `(580, 670]`), 850.0 gets
"Excellent", and 300.0 gets "Very Poor". -/
theorem category_binning (g : Globals) (d : RowDraws) (s : ℚ) :
    Credit_Score_Category g d = cut (Credit_Score_final g d) score_bins score_labels true ∧
    (cut s score_bins score_labels true =
      if 300 ≤ s ∧ s ≤ 580 then some "Very Poor"
      else if 580 < s ∧ s ≤ 670 then some "Fair"
      else if 670 < s ∧ s ≤ 740 then some "Good"
      else if 740 < s ∧ s ≤ 800 then some "Very Good"
      else if 800 < s ∧ s ≤ 850 then some "Excellent"
      else none) ∧
    cut (579.9 : ℚ) score_bins score_labels true = some "Very Poor" ∧
    cut (580 : ℚ) score_bins score_labels true = some "Very Poor" ∧
    cut (850 : ℚ) score_bins score_labels true = some "Excellent" ∧
    cut (300 : ℚ) score_bins score_labels true = some "Very Poor" := by
  refine ⟨rfl, ?_,
    by norm_num [cut, cutGo, score_bins, score_labels],
    by norm_num [cut, cutGo, score_bins, score_labels],
    by norm_num [cut, cutGo, score_bins, score_labels],
    by norm_num [cut, cutGo, score_bins, score_labels]⟩
  rcases eq_or_ne s 300 with rfl | hne
  · norm_num [cut, cutGo, score_bins, score_labels]
  · simp only [cut, cutGo, score_bins, score_labels, hne, and_false, if_false,
      Bool.true_eq, true_and, if_neg]
    exact if_congr
      ⟨fun h => ⟨h.1.le, h.2⟩, fun h => ⟨lt_of_le_of_ne h.1 (Ne.symm hne), h.2⟩⟩ rfl rfl

/-- Claim C4: the pre-clip final credit score equals the base sampled score,
minus first-pass DTI × 50, minus a bankruptcy penalty applied only when a
bankruptcy date exists (50 if less than 7 years ago, 20 if between 7 and 10,
5 if more than 10 — non-increasing in years, strictly smaller in each later
band), plus 0.5 × history length, minus the utilization penalty (25 above
0.75, 10 above 0.5, else 0); the final score is this value clipped to
[300, 850]. -/
theorem preclip_score_formula (g : Globals) (d : RowDraws) :
    Credit_Score_final g d = clipQ (Credit_Score_preClip g d) 300 850 ∧
    Credit_Score_preClip g d =
      Credit_Score_base g d - DTI_1 d * 50
        - (if d.bankruptcy then bankruptcy_penalty ((d.bankruptcyDaysAgo : ℚ) / 365) else 0)
        + (Credit_History_Length d : ℚ) * 0.5
        - (if 0.75 < d.utilization then 25 else if 0.5 < d.utilization then 10 else 0) ∧
    (∀ ys : ℚ, ys < 7 → bankruptcy_penalty ys = 50) ∧
    (∀ ys : ℚ, 7 ≤ ys → ys < 10 → bankruptcy_penalty ys = 20) ∧
    (∀ ys : ℚ, 10 < ys → bankruptcy_penalty ys = 5) ∧
    (∀ y z : ℚ, y ≤ z → bankruptcy_penalty z ≤ bankruptcy_penalty y) := by
  refine ⟨rfl, ?_, fun ys h => bankruptcy_penalty_recent h,
    fun ys h7 h10 => bankruptcy_penalty_mid h7 h10,
    fun ys h => bankruptcy_penalty_old h.le, ?_⟩
  · cases hb : d.bankruptcy with
    | false =>
        simp only [Credit_Score_preClip, adjust_credit_score_by_utilization,
          Credit_Score_afterHistory, Credit_Score_afterBankruptcy,
          generate_bankruptcy_date, hb, if_false, Bool.false_eq_true,
          adjust_credit_score_by_bankruptcy, Credit_Score_afterDTI]
        split_ifs <;> ring
    | true =>
        simp only [Credit_Score_preClip, adjust_credit_score_by_utilization,
          Credit_Score_afterHistory, Credit_Score_afterBankruptcy,
          generate_bankruptcy_date, hb, if_true, adjust_bankruptcy_some,
          Credit_Score_afterDTI]
        split_ifs <;> ring
  · intro y z hyz
    rcases lt_or_le z 7 with hz | hz
    · rw [bankruptcy_penalty_recent hz, bankruptcy_penalty_recent (lt_of_le_of_lt hyz hz)]
    · rcases lt_or_le z 10 with hz10 | hz10
      · rw [bankruptcy_penalty_mid hz hz10]
        rcases lt_or_le y 7 with hy | hy
        · rw [bankruptcy_penalty_recent hy]; norm_num
        · rw [bankruptcy_penalty_mid hy (lt_of_le_of_lt hyz hz10)]
      · rw [bankruptcy_penalty_old hz10]
        rcases lt_or_le y 7 with hy | hy
        · rw [bankruptcy_penalty_recent hy]; norm_num
        · rcases lt_or_le y 10 with hy10 | hy10
          · rw [bankruptcy_penalty_mid hy hy10]; norm_num
          · rw [bankruptcy_penalty_old hy10]

/-- Claim C4 (witness): the penalty bands evaluated through the theorem at
5, 8 and 11 years, and monotonicity at 3 ≤ 12. -/
theorem preclip_score_formula_witness :
    bankruptcy_penalty 5 = 50 ∧ bankruptcy_penalty 8 = 20 ∧
    bankruptcy_penalty 11 = 5 ∧ bankruptcy_penalty 12 ≤ bankruptcy_penalty 3 :=
  ⟨(preclip_score_formula gBand590 dBank).2.2.1 5 (by norm_num),
   (preclip_score_formula gBand590 dBank).2.2.2.1 8 (by norm_num) (by norm_num),
   (preclip_score_formula gBand590 dBank).2.2.2.2.1 11 (by norm_num),
   (preclip_score_formula gBand590 dBank).2.2.2.2.2 3 12 (by norm_num)⟩

/-- Claim C5: after the debt-composition stage, card debt is income times a
factor in [0.05, 0.2), mortgage debt is income times a factor in [1, 3) for
owners and exactly 0 otherwise (in particular 0 for every renter), auto debt
is income times a factor in [0.1, 0.5), total debt is the sum of the four
debts, and DTI is total debt over income. -/
theorem debt_composition (d : RowDraws)
    (hc : 0.05 ≤ d.cardDebtFactor ∧ d.cardDebtFactor < 0.2)
    (hm : 1 ≤ d.mortgageFactor ∧ d.mortgageFactor < 3)
    (ha : 0.1 ≤ d.autoFactor ∧ d.autoFactor < 0.5) :
    (∃ c, Credit_Card_Debt d = Income_0 d * c ∧ 0.05 ≤ c ∧ c < 0.2) ∧
    (d.housing = Housing.Own →
      ∃ m, Mortgage_Debt d = Income_0 d * m ∧ 1 ≤ m ∧ m < 3) ∧
    (d.housing = Housing.Rent → Mortgage_Debt d = 0) ∧
    (∃ a, Auto_Loan_Debt d = Income_0 d * a ∧ 0.1 ≤ a ∧ a < 0.5) ∧
    Total_Debt_0 d =
      Existing_Debt_0 d + Credit_Card_Debt d + Mortgage_Debt d + Auto_Loan_Debt d ∧
    DTI_final d = Total_Debt_0 d / Income_0 d := by
  refine ⟨⟨d.cardDebtFactor, rfl, hc.1, hc.2⟩, ?_, ?_,
    ⟨d.autoFactor, rfl, ha.1, ha.2⟩, rfl, rfl⟩
  · intro h
    exact ⟨d.mortgageFactor, by simp [Mortgage_Debt, h], hm.1, hm.2⟩
  · intro h
    simp [Mortgage_Debt, h]

/-- Claim C5 (witness): the composition applied at a concrete renter row. -/
theorem debt_composition_witness :
    Mortgage_Debt dBase = 0 ∧ DTI_final dBase = Total_Debt_0 dBase / Income_0 dBase :=
  ⟨(debt_composition dBase (by norm_num [dBase]) (by norm_num [dBase])
      (by norm_num [dBase])).2.2.1 rfl,
   (debt_composition dBase (by norm_num [dBase]) (by norm_num [dBase])
      (by norm_num [dBase])).2.2.2.2.2⟩

/-- Claim C6: the outlier-injection step touches exactly
`int(0.01 × N) = 100` rows (for `N = 10000`): each selected row has its
`Income` multiplied by its drawn factor (2 or 3) and its `Total_Debt` by its
drawn factor (1.5 or 2) while every other column of the row is unchanged,
and every non-selected row is entirely unchanged. -/
theorem outlier_injection {α : Type} (rows : ℕ → OutlierRow α) (sel : Finset ℕ)
    (fi fd : ℕ → ℚ)
    (hcard : sel.card = numOutliers num_samples)
    (hfi : ∀ i, fi i = 2 ∨ fi i = 3)
    (hfd : ∀ i, fd i = 3 / 2 ∨ fd i = 2) :
    numOutliers num_samples = 100 ∧ sel.card = 100 ∧
    (∀ i ∈ sel, injectOutliers rows sel fi fd i =
        { income := (rows i).income * fi i, totalDebt := (rows i).totalDebt * fd i,
          rest := (rows i).rest } ∧
      ((injectOutliers rows sel fi fd i).income = (rows i).income * 2 ∨
        (injectOutliers rows sel fi fd i).income = (rows i).income * 3) ∧
      ((injectOutliers rows sel fi fd i).totalDebt = (rows i).totalDebt * (3 / 2) ∨
        (injectOutliers rows sel fi fd i).totalDebt = (rows i).totalDebt * 2)) ∧
    (∀ i ∉ sel, injectOutliers rows sel fi fd i = rows i) := by
  have h100 : numOutliers num_samples = 100 := by
    norm_num [numOutliers, num_samples]
    decide
  refine ⟨h100, hcard.trans h100, ?_, ?_⟩
  · intro i hi
    have hrow : injectOutliers rows sel fi fd i =
        { income := (rows i).income * fi i, totalDebt := (rows i).totalDebt * fd i,
          rest := (rows i).rest } := by
      simp [injectOutliers, hi]
    refine ⟨hrow, ?_, ?_⟩
    · rw [hrow]
      rcases hfi i with h | h
      · exact Or.inl (by rw [h])
      · exact Or.inr (by rw [h])
    · rw [hrow]
      rcases hfd i with h | h
      · exact Or.inl (by rw [h])
      · exact Or.inr (by rw [h])
  · intro i hi
    simp [injectOutliers, hi]

/-- Claim C6 (witness): the injection applied to a concrete table of 10000
constant rows with the first 100 indices selected. -/
theorem outlier_injection_witness :
    numOutliers num_samples = 100 ∧
    injectOutliers (fun _ => (⟨1, 1, 0⟩ : OutlierRow ℤ)) (Finset.range 100)
      (fun _ => 2) (fun _ => 3 / 2) 205 = ⟨1, 1, 0⟩ := by
  have h := outlier_injection (fun _ => (⟨1, 1, 0⟩ : OutlierRow ℤ)) (Finset.range 100)
    (fun _ => 2) (fun _ => 3 / 2)
    (by rw [Finset.card_range]; norm_num [numOutliers, num_samples]; decide)
    (fun i => Or.inl rfl) (fun i => Or.inl rfl)
  exact ⟨h.1, h.2.2.2 205 (by simp)⟩

/-- Claim C7: `Payment_History` is one of Excellent/Good/Average/Poor; it is
"Poor" whenever there is a bankruptcy, otherwise "Poor" whenever the
delinquency count exceeds 3, and otherwise it is the weighted two-label draw
of the credit-score band: {Excellent, Good} at score ≥ 750, {Good, Average}
at 650 ≤ score < 750, {Average, Poor} below 650. -/
theorem payment_history_cases (g : Globals) (d : RowDraws) :
    Payment_History g d =
      simulate_payment_history (Credit_Score_afterBankruptcy g d)
        d.delinquency d.bankruptcy d.paymentPick ∧
    (Payment_History g d = "Excellent" ∨ Payment_History g d = "Good" ∨
      Payment_History g d = "Average" ∨ Payment_History g d = "Poor") ∧
    (d.bankruptcy = true → Payment_History g d = "Poor") ∧
    (d.bankruptcy = false → 3 < d.delinquency → Payment_History g d = "Poor") ∧
    (d.bankruptcy = false → d.delinquency ≤ 3 →
      750 ≤ Credit_Score_afterBankruptcy g d →
      Payment_History g d = "Excellent" ∨ Payment_History g d = "Good") ∧
    (d.bankruptcy = false → d.delinquency ≤ 3 →
      650 ≤ Credit_Score_afterBankruptcy g d →
      Credit_Score_afterBankruptcy g d < 750 →
      Payment_History g d = "Good" ∨ Payment_History g d = "Average") ∧
    (d.bankruptcy = false → d.delinquency ≤ 3 →
      Credit_Score_afterBankruptcy g d < 650 →
      Payment_History g d = "Average" ∨ Payment_History g d = "Poor") := by
  refine ⟨rfl, ?_, ?_, ?_, ?_, ?_, ?_⟩
  · unfold Payment_History simulate_payment_history
    split_ifs <;> simp
  · intro hb
    simp [Payment_History, simulate_payment_history, hb]
  · intro hb hd
    simp [Payment_History, simulate_payment_history, hb, hd]
  · intro hb hd hs
    simp only [Payment_History, simulate_payment_history, hb, if_false,
      Bool.false_eq_true, not_lt.mpr hd, if_pos hs]
    cases d.paymentPick <;> simp
  · intro hb hd hs hs2
    have hcond : (650 : ℚ) ≤ Credit_Score_afterBankruptcy g d ∧
        Credit_Score_afterBankruptcy g d < 750 := ⟨hs, hs2⟩
    simp only [Payment_History, simulate_payment_history, hb, if_false,
      Bool.false_eq_true, not_lt.mpr hd, if_neg (not_le.mpr hs2), if_pos hcond]
    cases d.paymentPick <;> simp
  · intro hb hd hs
    have h750 : ¬ (750 : ℚ) ≤ Credit_Score_afterBankruptcy g d := by linarith
    have h650 : ¬ ((650 : ℚ) ≤ Credit_Score_afterBankruptcy g d ∧
        Credit_Score_afterBankruptcy g d < 750) := fun h => absurd hs (not_lt.mpr h.1)
    simp only [Payment_History, simulate_payment_history, hb, if_false,
      Bool.false_eq_true, not_lt.mpr hd, if_neg h750, if_neg h650]
    cases d.paymentPick <;> simp

/-- Claim C7 (witness): the bankruptcy rule and the mid-band rule applied at
concrete rows. -/
theorem payment_history_cases_witness :
    Payment_History gBand590 dBank = "Poor" ∧
    (Payment_History gBand758 dRow748 = "Good" ∨
      Payment_History gBand758 dRow748 = "Average") :=
  ⟨(payment_history_cases gBand590 dBank).2.2.1 rfl,
   (payment_history_cases gBand758 dRow748).2.2.2.2.2.1 rfl (by norm_num [dRow748, dBase])
     (by norm_num [Credit_Score_afterBankruptcy, generate_bankruptcy_date,
       adjust_credit_score_by_bankruptcy, Credit_Score_afterDTI, Credit_Score_base,
       DTI_1, Existing_Debt_0, Income_0, income_adjustment, education_income_multiplier,
       employment_income_multiplier, clipQ, min_def, max_def, gBand758, dRow748, dBase])
     (by norm_num [Credit_Score_afterBankruptcy, generate_bankruptcy_date,
       adjust_credit_score_by_bankruptcy, Credit_Score_afterDTI, Credit_Score_base,
       DTI_1, Existing_Debt_0, Income_0, income_adjustment, education_income_multiplier,
       employment_income_multiplier, clipQ, min_def, max_def, gBand758, dRow748, dBase])⟩

/-- Claim C8: the income derivation succeeds exactly when all three
categorical values are keys of their multiplier tables (a missing key is a
`KeyError`, i.e. a hard failure with no default), and for every combination
of labels the base sampler can produce, all three lookups succeed, so the
error branch is unreachable on sampler output. -/
theorem income_lookup_totality (b : ℚ) (r e s : String)
    (hr : r ∈ region_labels) (he : e ∈ education_labels)
    (hs : s ∈ employment_labels) :
    (∀ b2 : ℚ, ∀ r2 e2 s2 : String,
      (derive_income b2 r2 e2 s2).isSome ↔
        ((income_adjustment_table.lookup r2).isSome ∧
         (education_income_multiplier_table.lookup e2).isSome ∧
         (employment_income_multiplier_table.lookup s2).isSome)) ∧
    (derive_income b r e s).isSome := by
  have hiff : ∀ b2 : ℚ, ∀ r2 e2 s2 : String,
      (derive_income b2 r2 e2 s2).isSome ↔
        ((income_adjustment_table.lookup r2).isSome ∧
         (education_income_multiplier_table.lookup e2).isSome ∧
         (employment_income_multiplier_table.lookup s2).isSome) := by
    intro b2 r2 e2 s2
    cases h1 : income_adjustment_table.lookup r2 <;>
      cases h2 : education_income_multiplier_table.lookup e2 <;>
        cases h3 : employment_income_multiplier_table.lookup s2 <;>
          simp [derive_income, h1, h2, h3]
  refine ⟨hiff, (hiff b r e s).mpr ⟨?_, ?_, ?_⟩⟩
  · fin_cases hr <;> decide
  · fin_cases he <;> decide
  · fin_cases hs <;> decide

/-- Claim C8 (witness): the derivation applied at a concrete sampler-produced
combination of labels. -/
theorem income_lookup_totality_witness :
    (derive_income 75000 "Northeast" "High School" "Retired").isSome :=
  (income_lookup_totality 75000 "Northeast" "High School" "Retired"
    (by decide) (by decide) (by decide)).2

/-- Claim C10: `Payment_History` is a function of the credit score as it
stands after the DTI and bankruptcy adjustments only — changing the
utilization and account-age draws (which feed the later adjustments) never
changes it — and at a concrete row the mid-pipeline score 748 selects the
650-749 band ("Good") while the final score 758 would select the ≥ 750 band
("Excellent"). -/
theorem payment_history_midpipeline_score :
    (∀ (g : Globals) (d : RowDraws) (u : ℚ) (a : ℕ),
      Payment_History g { d with utilization := u, accountAgeDraw := a } =
        Payment_History g d) ∧
    Credit_Score_afterBankruptcy gBand758 dRow748 = 748 ∧
    Credit_Score_final gBand758 dRow748 = 758 ∧
    Payment_History gBand758 dRow748 = "Good" ∧
    simulate_payment_history (Credit_Score_final gBand758 dRow748)
      dRow748.delinquency dRow748.bankruptcy dRow748.paymentPick = "Excellent" := by
  have hmid : Credit_Score_afterBankruptcy gBand758 dRow748 = 748 := by
    norm_num [Credit_Score_afterBankruptcy, generate_bankruptcy_date,
      adjust_credit_score_by_bankruptcy, Credit_Score_afterDTI, Credit_Score_base,
      DTI_1, Existing_Debt_0, Income_0, income_adjustment, education_income_multiplier,
      employment_income_multiplier, clipQ, min_def, max_def, gBand758, dRow748, dBase]
  have hfin : Credit_Score_final gBand758 dRow748 = 758 := by
    norm_num [Credit_Score_final, Credit_Score_preClip, adjust_credit_score_by_utilization,
      Credit_Score_afterHistory, Credit_History_Length, Account_Age, generate_account_age,
      Credit_Score_afterBankruptcy, generate_bankruptcy_date,
      adjust_credit_score_by_bankruptcy, Credit_Score_afterDTI, Credit_Score_base,
      DTI_1, Existing_Debt_0, Income_0, income_adjustment, education_income_multiplier,
      employment_income_multiplier, clipQ, min_def, max_def, gBand758, dRow748, dBase]
  refine ⟨fun g d u a => rfl, hmid, hfin, ?_, ?_⟩
  · rw [Payment_History, hmid]
    norm_num [simulate_payment_history, dRow748, dBase]
  · rw [hfin]
    norm_num [simulate_payment_history, dRow748, dBase]

end CreditData
